import Mathlib

/-!
Verification development for a chat front-end that routes each user turn
to one of several model backends via a two-level string classifier.

The development shallowly embeds the routing layer of `app.py`:
Python string primitives (`strip`, `upper`, `replace`, `split`, `join`)
are modelled on `List Char`, external model calls are modelled by an
oracle record, and the turn orchestrator is a pure function that also
returns the trace of backend/classifier calls it makes.
-/

namespace App

/-! ### Python string primitives -/

/-- ASCII whitespace stripped by Python `str.strip()`. -/
def pyIsSpace (c : Char) : Bool :=
  c = ' ' || c = '\t' || c = '\n' || c = '\r' || c = '\x0b' || c = '\x0c'

/-- Predicate `leadsWith p l`: holds when `p` is a leading segment of `l`
(Python `str.startswith`). -/
def leadsWith : List Char → List Char → Bool
  | [], _ => true
  | _ :: _, [] => false
  | p :: ps, c :: cs => p = c && leadsWith ps cs

/-- Predicate `occursIn pat l`: `pat` occurs as a contiguous segment of `l`
(Python `pat in l`). -/
def occursIn (pat : List Char) : List Char → Bool
  | [] => leadsWith pat []
  | c :: cs => leadsWith pat (c :: cs) || occursIn pat cs

/-- Python `str.strip()` on a character list. -/
def pyStripList (l : List Char) : List Char :=
  ((l.dropWhile pyIsSpace).reverse.dropWhile pyIsSpace).reverse

/-- Python `str.strip()`. -/
def pyStrip (s : String) : String :=
  ⟨pyStripList s.data⟩

/-- Python `str.upper()` on one ASCII character. -/
def pyUpperChar (c : Char) : Char :=
  if 97 ≤ c.toNat ∧ c.toNat ≤ 122 then Char.ofNat (c.toNat - 32) else c

/-- Python `str.upper()` (ASCII fragment). -/
def pyUpper (s : String) : String :=
  ⟨s.data.map pyUpperChar⟩

/-- The normalization `str.strip().upper()` the switch applies to every
classifier output. -/
def pyNorm (s : String) : String :=
  pyUpper (pyStrip s)

/-- Fuel-driven core of Python `str.replace(pat, rep)`: replaces every
non-overlapping occurrence of a nonempty `pat`, scanning left to right.
Fuel at least the list length makes the scan total. -/
def pyReplaceFuel (pat rep : List Char) : Nat → List Char → List Char
  | _, [] => []
  | 0, l => l
  | fuel + 1, c :: cs =>
    if leadsWith pat (c :: cs) ∧ pat ≠ [] then
      rep ++ pyReplaceFuel pat rep fuel (List.drop (pat.length - 1) cs)
    else c :: pyReplaceFuel pat rep fuel cs

/-- Python `str.replace(pat, rep)` on lists (nonempty `pat`; the app only
replaces the nonempty role markers). -/
def pyReplaceList (pat rep l : List Char) : List Char :=
  pyReplaceFuel pat rep l.length l

/-- Python `str.replace`. -/
def pyReplace (s pat rep : String) : String :=
  ⟨pyReplaceList pat.data rep.data s.data⟩

/-- Fuel-driven core of Python `str.split(sep)` for a nonempty `sep`:
scans `l`, accumulating the current chunk (reversed) in `acc`. -/
def pySplitFuel (sep : List Char) : Nat → List Char → List Char → List (List Char)
  | _, [], acc => [acc.reverse]
  | 0, l, acc => [acc.reverse ++ l]
  | fuel + 1, c :: cs, acc =>
    if leadsWith sep (c :: cs) ∧ sep ≠ [] then
      acc.reverse :: pySplitFuel sep fuel (List.drop (sep.length - 1) cs) []
    else pySplitFuel sep fuel cs (c :: acc)

/-- Python `str.split(sep)` for a nonempty separator. -/
def pySplitList (sep l : List Char) : List (List Char) :=
  pySplitFuel sep l.length l []

/-- Python `str.split(sep)`. -/
def pySplit (s sep : String) : List String :=
  (pySplitList sep.data s.data).map (fun l => ⟨l⟩)

/-- Python `sep.join(parts)` on lists. -/
def pyJoinList (sep : List Char) : List (List Char) → List Char
  | [] => []
  | [x] => x
  | x :: xs => x ++ sep ++ pyJoinList sep xs

/-- Python `sep.join(parts)`. -/
def pyJoin (sep : String) (parts : List String) : String :=
  ⟨pyJoinList sep.data (parts.map String.data)⟩

end App

namespace App

example : pyNorm "  router " = "ROUTER" := by decide
example : pyReplace "User: see User: hi" "User: " "" = "see hi" := by decide
example : pySplit "User: a\n\nAssistant: b" "\n\n" = ["User: a", "Assistant: b"] := by decide
example : pyJoin "\n\n" ["User: a", "Assistant: b"] = "User: a\n\nAssistant: b" := by decide
example : pySplit "a\n\n\n\nb" "\n\n" = ["a", "", "b"] := by decide
example : pySplit "" "\n\n" = [""] := by decide

/-! ### Data model -/

/-- A chat message: a `role` string (`"user"`, `"assistant"`, `"system"`)
with free text, as stored in `st.session_state.messages` and as sent to
the Anthropic / Ollama APIs. -/
structure Msg where
  role : String
  content : String
deriving DecidableEq, Repr

/-- The hard-coded fallback instruction text of app.py:35-39 (leading
sentence of the verbatim text; only its fixedness and nonemptiness
matter to the claims). -/
def default_instructions : String :=
  "You are an experienced and knowledgeable yoga teacher."

/-- Model of `load_instructions` (app.py:29-39): returns the file contents, or a
fixed default when the file is missing. The filesystem is modelled as a
map from file name to optional contents (`none` = `FileNotFoundError`). -/
def load_instructions (fs : String → Option String) (file_name : String) : String :=
  match fs file_name with
  | some contents => contents
  | none => default_instructions

/-- Model of the `conversation_history` string built by the presentation layer
(app.py:286-289): every stored message except the last, rendered as
`User: text` / `Assistant: text`, joined by blank lines. -/
def conversation_history (messages : List Msg) : String :=
  pyJoin "\n\n"
    ((messages.dropLast).map fun msg =>
      (if msg.role = "user" then "User" else "Assistant") ++ ": " ++ msg.content)

/-- Model of the `full_prompt` of `custom_agent_runner` (app.py:169). -/
def full_prompt (goal conversation_history : String) : String :=
  if conversation_history ≠ "" then conversation_history ++ "\n\nUser: " ++ goal
  else goal

/-- One pass of the history re-parsing loop shared by the Anthropic and
Ollama adapters (app.py:113-117 and 146-150): a segment is kept only
when it carries a role marker, and Python `replace` strips every
occurrence of that marker. -/
def parseHistoryLine (line : String) : Option Msg :=
  if leadsWith "User: ".data line.data then
    some ⟨"user", pyReplace line "User: " ""⟩
  else if leadsWith "Assistant: ".data line.data then
    some ⟨"assistant", pyReplace line "Assistant: " ""⟩
  else none

/-- The whole history re-parsing loop: split on blank lines, keep the
recognized segments. -/
def parseHistory (conversation_history : String) : List Msg :=
  (pySplit conversation_history "\n\n").filterMap parseHistoryLine

/-- Message list sent to the Anthropic API (app.py:109-120): re-parsed
history (when nonempty) followed by the current goal as a user message.
No system message is attached. -/
def anthropic_messages (goal conversation_history : String) : List Msg :=
  (if conversation_history ≠ "" then parseHistory conversation_history else [])
    ++ [⟨"user", goal⟩]

/-- Message list sent to Ollama (app.py:137-153): the Ollama persona as
a system message, then re-parsed history (when nonempty), then the
current goal as a user message. -/
def ollama_messages (ollama_instructions goal conversation_history : String) : List Msg :=
  ⟨"system", ollama_instructions⟩ ::
    ((if conversation_history ≠ "" then parseHistory conversation_history else [])
      ++ [⟨"user", goal⟩])

/-! ### External world -/

/-- One external call made during a turn, with the exact input handed to
it.  `classifySwitch` / `classifySub` are the two `Runner.run` calls on
the throwaway classifier agents; `runAgent` is a `Runner.run` on one of
the three OpenAI-side agents; `anthropic` / `ollama` are the two
non-OpenAI adapters (which receive goal and history separately). -/
inductive AgentId where
  | fileSearchAgent
  | webSearchAgent
  | routerAgent
deriving DecidableEq, Repr

inductive Call where
  | classifySwitch (input : String)
  | classifySub (input : String)
  | runAgent (agent : AgentId) (input : String)
  | anthropic (goal conversation_history : String)
  | ollama (goal conversation_history : String)
deriving DecidableEq, Repr

/-- Responses of the external services for one turn.  A `.error e`
models the Python call raising an exception with message `e`; `.ok`
carries `final_output` / the response text. -/
structure Oracle where
  switchOut : Except String String
  subOut : Except String String
  runFileSearch : String → Except String String
  runWebSearch : String → Except String String
  runRouterAgent : String → Except String String
  anthropicApi : List Msg → Except String String
  ollamaChat : List Msg → Except String String

/-- Model of `generate_anthropic_response` (app.py:105-130): builds the message
list and returns the API's text; any API exception propagates. -/
def generate_anthropic_response (o : Oracle) (goal conversation_history : String) :
    Except String String :=
  o.anthropicApi (anthropic_messages goal conversation_history)

/-- Model of `generate_ollama_response` (app.py:133-165): builds the message list
and calls `chat`; every exception is caught and turned into a normal
user-visible error string. -/
def generate_ollama_response (o : Oracle) (ollama_instructions goal conversation_history : String) :
    Except String String :=
  match o.ollamaChat (ollama_messages ollama_instructions goal conversation_history) with
  | Except.ok content => Except.ok content
  | Except.error e =>
      Except.ok ("Error connecting to Ollama: " ++ e ++
        ". Make sure Ollama is running locally.")

/-- Model of `custom_agent_runner` (app.py:168-241): the two-level switch.
Returns the turn's result (`.error` = an uncaught Python exception) and
the ordered trace of external calls made before returning. -/
def custom_agent_runner (o : Oracle) (ollama_instructions goal conversation_history : String) :
    Except String String × List Call :=
  let fp := full_prompt goal conversation_history
  match o.switchOut with
  | Except.error e => (Except.error e, [Call.classifySwitch fp])
  | Except.ok out =>
    let decision := pyNorm out
    if decision = "ROUTER" then
      match o.subOut with
      | Except.error e =>
          (Except.error e, [Call.classifySwitch fp, Call.classifySub fp])
      | Except.ok subOut =>
        let sub_decision := pyNorm subOut
        if sub_decision = "FILE" then
          (o.runFileSearch fp,
            [Call.classifySwitch fp, Call.classifySub fp,
              Call.runAgent AgentId.fileSearchAgent fp])
        else if sub_decision = "WEB" then
          (o.runWebSearch fp,
            [Call.classifySwitch fp, Call.classifySub fp,
              Call.runAgent AgentId.webSearchAgent fp])
        else
          (o.runRouterAgent fp,
            [Call.classifySwitch fp, Call.classifySub fp,
              Call.runAgent AgentId.routerAgent fp])
    else if decision = "ANTHROPIC" then
      (generate_anthropic_response o goal conversation_history,
        [Call.classifySwitch fp, Call.anthropic goal conversation_history])
    else if decision = "OLLAMA" then
      (generate_ollama_response o ollama_instructions goal conversation_history,
        [Call.classifySwitch fp, Call.ollama goal conversation_history])
    else
      (o.runRouterAgent fp,
        [Call.classifySwitch fp, Call.runAgent AgentId.routerAgent fp])

/-- One processed chat turn of the presentation layer (app.py:271-300):
append the user message, build the history from everything before it,
run the agent system, and on success append the reply.  The first
component is the session message list afterwards; `.error` in the second
component is a turn that died with an uncaught exception (the reply is
then never appended). -/
def process_turn (o : Oracle) (ollama_instructions : String) (messages : List Msg)
    (prompt : String) : List Msg × Except String String :=
  let messages1 := messages ++ [⟨"user", prompt⟩]
  let hist := conversation_history messages1
  match (custom_agent_runner o ollama_instructions prompt hist).1 with
  | Except.error e => (messages1, Except.error e)
  | Except.ok reply => (messages1 ++ [⟨"assistant", reply⟩], Except.ok reply)

/-- The calls that are classifier invocations (the two throwaway
`Runner.run` calls whose outputs are string-matched). -/
def isClassifierCall : Call → Bool
  | Call.classifySwitch _ => true
  | Call.classifySub _ => true
  | _ => false

/-- The calls that invoke a backend adapter (an OpenAI agent run, the
Anthropic adapter, or the Ollama adapter). -/
def isBackendCall : Call → Bool
  | Call.runAgent _ _ => true
  | Call.anthropic _ _ => true
  | Call.ollama _ _ => true
  | _ => false

/-- A concrete external world used to exercise the theorems: the switch
says ROUTER, the sub-route says GENERAL, and each backend answers with a
one-letter tag. -/
def oracGeneral : Oracle where
  switchOut := Except.ok "ROUTER"
  subOut := Except.ok "GENERAL"
  runFileSearch := fun _ => Except.ok "F"
  runWebSearch := fun _ => Except.ok "W"
  runRouterAgent := fun _ => Except.ok "G"
  anthropicApi := fun _ => Except.ok "A"
  ollamaChat := fun _ => Except.ok "L"

end App

namespace App

example : (custom_agent_runner oracGeneral "oi" "hi" "").1 = Except.ok "G" := rfl
example : (custom_agent_runner { oracGeneral with subOut := Except.ok " file " } "oi" "hi" "").1
    = Except.ok "F" := rfl
example : (custom_agent_runner { oracGeneral with switchOut := Except.ok "ollama" } "oi" "hi" "").1
    = Except.ok "L" := rfl

/-- Claim C2. Every second-stage classifier output whose normalized form is
neither `"FILE"` nor `"WEB"` (any unrecognized word included) is
dispatched to the GENERAL backend: the base router agent runs on the
full prompt and its output is the turn's result. -/
theorem unrecognized_sub_route_runs_general
    (o : Oracle) (instr goal hist s u : String)
    (hs : o.switchOut = Except.ok s) (hns : pyNorm s = "ROUTER")
    (hu : o.subOut = Except.ok u)
    (hf : pyNorm u ≠ "FILE") (hw : pyNorm u ≠ "WEB") :
    custom_agent_runner o instr goal hist =
      (o.runRouterAgent (full_prompt goal hist),
        [Call.classifySwitch (full_prompt goal hist),
          Call.classifySub (full_prompt goal hist),
          Call.runAgent AgentId.routerAgent (full_prompt goal hist)]) := by
  simp [custom_agent_runner, hs, hns, hu, hf, hw]

/-- Witness for C2: a sub-route answer of `" chitchat "` lands on the
base router agent. -/
theorem unrecognized_sub_route_runs_general_witness :
    custom_agent_runner { oracGeneral with subOut := Except.ok " chitchat " } "oi" "hi" "" =
      ((({ oracGeneral with subOut := Except.ok " chitchat " } : Oracle).runRouterAgent
          (full_prompt "hi" "")),
        [Call.classifySwitch (full_prompt "hi" ""),
          Call.classifySub (full_prompt "hi" ""),
          Call.runAgent AgentId.routerAgent (full_prompt "hi" "")]) :=
  unrecognized_sub_route_runs_general _ "oi" "hi" "" "ROUTER" " chitchat "
    rfl rfl rfl (by decide) (by decide)

/-- Claim C3. The sub-route classifier is called iff the switch
classifier's normalized output is `"ROUTER"`, and every classifier call
receives the full prompt (history followed by the current user
message). -/
theorem sub_classifier_iff_router_and_same_input
    (o : Oracle) (instr goal hist : String) :
    (custom_agent_runner o instr goal hist).2.filter isClassifierCall =
      Call.classifySwitch (full_prompt goal hist) ::
        (match o.switchOut with
          | Except.ok s =>
            if pyNorm s = "ROUTER" then [Call.classifySub (full_prompt goal hist)] else []
          | Except.error _ => []) := by
  cases hsw : o.switchOut with
  | error e => simp [custom_agent_runner, hsw, isClassifierCall]
  | ok s =>
    by_cases hr : pyNorm s = "ROUTER"
    · cases hsub : o.subOut with
      | error e => simp [custom_agent_runner, hsw, hsub, hr, isClassifierCall]
      | ok u =>
        by_cases hf : pyNorm u = "FILE"
        · simp [custom_agent_runner, hsw, hsub, hr, hf, isClassifierCall]
        · by_cases hw : pyNorm u = "WEB" <;>
            simp [custom_agent_runner, hsw, hsub, hr, hf, hw, isClassifierCall]
    · by_cases ha : pyNorm s = "ANTHROPIC"
      · simp [custom_agent_runner, hsw, hr, ha, isClassifierCall]
      · by_cases hl : pyNorm s = "OLLAMA" <;>
          simp [custom_agent_runner, hsw, hr, ha, hl, isClassifierCall]

end App

namespace App

/-- Claim C4. Each recognized category invokes exactly one backend adapter
on the same prompt/history the classifiers saw, and the turn's result is
that backend's raw output, unmodified: FILE → file-search agent,
WEB → web-search agent, GENERAL → base router agent, ANTHROPIC → the
Anthropic adapter, OLLAMA → the Ollama adapter. -/
theorem recognized_category_single_backend
    (o : Oracle) (instr goal hist : String) :
    (∀ s u, o.switchOut = Except.ok s → pyNorm s = "ROUTER" →
      o.subOut = Except.ok u → pyNorm u = "FILE" →
      (custom_agent_runner o instr goal hist).1 = o.runFileSearch (full_prompt goal hist) ∧
      (custom_agent_runner o instr goal hist).2.filter isBackendCall
        = [Call.runAgent AgentId.fileSearchAgent (full_prompt goal hist)])
    ∧ (∀ s u, o.switchOut = Except.ok s → pyNorm s = "ROUTER" →
      o.subOut = Except.ok u → pyNorm u = "WEB" →
      (custom_agent_runner o instr goal hist).1 = o.runWebSearch (full_prompt goal hist) ∧
      (custom_agent_runner o instr goal hist).2.filter isBackendCall
        = [Call.runAgent AgentId.webSearchAgent (full_prompt goal hist)])
    ∧ (∀ s u, o.switchOut = Except.ok s → pyNorm s = "ROUTER" →
      o.subOut = Except.ok u → pyNorm u = "GENERAL" →
      (custom_agent_runner o instr goal hist).1 = o.runRouterAgent (full_prompt goal hist) ∧
      (custom_agent_runner o instr goal hist).2.filter isBackendCall
        = [Call.runAgent AgentId.routerAgent (full_prompt goal hist)])
    ∧ (∀ s, o.switchOut = Except.ok s → pyNorm s = "ANTHROPIC" →
      (custom_agent_runner o instr goal hist).1 = generate_anthropic_response o goal hist ∧
      (custom_agent_runner o instr goal hist).1 = o.anthropicApi (anthropic_messages goal hist) ∧
      (custom_agent_runner o instr goal hist).2.filter isBackendCall
        = [Call.anthropic goal hist])
    ∧ (∀ s, o.switchOut = Except.ok s → pyNorm s = "OLLAMA" →
      (custom_agent_runner o instr goal hist).1 = generate_ollama_response o instr goal hist ∧
      (∀ t, o.ollamaChat (ollama_messages instr goal hist) = Except.ok t →
        (custom_agent_runner o instr goal hist).1 = Except.ok t) ∧
      (custom_agent_runner o instr goal hist).2.filter isBackendCall
        = [Call.ollama goal hist]) := by
  refine ⟨?_, ?_, ?_, ?_, ?_⟩
  · intro s u hs hns hu hnu
    constructor <;> simp [custom_agent_runner, hs, hns, hu, hnu, isBackendCall]
  · intro s u hs hns hu hnu
    constructor <;> simp [custom_agent_runner, hs, hns, hu, hnu, isBackendCall]
  · intro s u hs hns hu hnu
    constructor <;> simp [custom_agent_runner, hs, hns, hu, hnu, isBackendCall]
  · intro s hs hns
    refine ⟨?_, ?_, ?_⟩ <;>
      simp [custom_agent_runner, hs, hns, isBackendCall, generate_anthropic_response]
  · intro s hs hns
    refine ⟨?_, ?_, ?_⟩
    · simp [custom_agent_runner, hs, hns]
    · intro t ht
      simp [custom_agent_runner, hs, hns, generate_ollama_response, ht]
    · simp [custom_agent_runner, hs, hns, isBackendCall]

/-- Witness for C4: with the switch answering `"ANTHROPIC"`, the single
backend call is the Anthropic adapter and the raw API output is
returned. -/
theorem recognized_category_single_backend_witness :
    (custom_agent_runner { oracGeneral with switchOut := Except.ok "ANTHROPIC" } "oi" "hi" "").1
        = ({ oracGeneral with switchOut := Except.ok "ANTHROPIC" } : Oracle).anthropicApi
            (anthropic_messages "hi" "") ∧
      (custom_agent_runner { oracGeneral with switchOut := Except.ok "ANTHROPIC" } "oi" "hi" "").2.filter
          isBackendCall
        = [Call.anthropic "hi" ""] := by
  have h := (recognized_category_single_backend
    { oracGeneral with switchOut := Except.ok "ANTHROPIC" } "oi" "hi" "").2.2.2.1
    "ANTHROPIC" rfl rfl
  exact ⟨h.2.1, h.2.2⟩

/-- Claim C6. Exceptions from the Ollama backend are caught and turned
into a normal, user-visible error text naming the failure; exceptions
from the Anthropic backend or from any of the OpenAI agent runs — the
two classifier runs, the file-search, web-search and general
(router-agent) sub-route runs, and the fallback router-agent run —
propagate uncaught out of the turn. -/
theorem ollama_errors_caught_others_propagate
    (o : Oracle) (instr goal hist : String) :
    (∀ s e, o.switchOut = Except.ok s → pyNorm s = "OLLAMA" →
      o.ollamaChat (ollama_messages instr goal hist) = Except.error e →
      (custom_agent_runner o instr goal hist).1 =
        Except.ok ("Error connecting to Ollama: " ++ e ++
          ". Make sure Ollama is running locally."))
    ∧ (∀ s e, o.switchOut = Except.ok s → pyNorm s = "ANTHROPIC" →
      o.anthropicApi (anthropic_messages goal hist) = Except.error e →
      (custom_agent_runner o instr goal hist).1 = Except.error e)
    ∧ (∀ e, o.switchOut = Except.error e →
      (custom_agent_runner o instr goal hist).1 = Except.error e)
    ∧ (∀ s e, o.switchOut = Except.ok s → pyNorm s = "ROUTER" →
      o.subOut = Except.error e →
      (custom_agent_runner o instr goal hist).1 = Except.error e)
    ∧ (∀ s u e, o.switchOut = Except.ok s → pyNorm s = "ROUTER" →
      o.subOut = Except.ok u → pyNorm u = "FILE" →
      o.runFileSearch (full_prompt goal hist) = Except.error e →
      (custom_agent_runner o instr goal hist).1 = Except.error e)
    ∧ (∀ s u e, o.switchOut = Except.ok s → pyNorm s = "ROUTER" →
      o.subOut = Except.ok u → pyNorm u = "WEB" →
      o.runWebSearch (full_prompt goal hist) = Except.error e →
      (custom_agent_runner o instr goal hist).1 = Except.error e)
    ∧ (∀ s u e, o.switchOut = Except.ok s → pyNorm s = "ROUTER" →
      o.subOut = Except.ok u → pyNorm u ≠ "FILE" → pyNorm u ≠ "WEB" →
      o.runRouterAgent (full_prompt goal hist) = Except.error e →
      (custom_agent_runner o instr goal hist).1 = Except.error e)
    ∧ (∀ s e, o.switchOut = Except.ok s →
      pyNorm s ≠ "ROUTER" → pyNorm s ≠ "ANTHROPIC" → pyNorm s ≠ "OLLAMA" →
      o.runRouterAgent (full_prompt goal hist) = Except.error e →
      (custom_agent_runner o instr goal hist).1 = Except.error e) := by
  refine ⟨?_, ?_, ?_, ?_, ?_, ?_, ?_, ?_⟩
  · intro s e hs hns hchat
    simp [custom_agent_runner, hs, hns, generate_ollama_response, hchat]
  · intro s e hs hns hapi
    simp [custom_agent_runner, hs, hns, generate_anthropic_response, hapi]
  · intro e hs
    simp [custom_agent_runner, hs]
  · intro s e hs hns hsub
    simp [custom_agent_runner, hs, hns, hsub]
  · intro s u e hs hns hu hnu hrun
    simp [custom_agent_runner, hs, hns, hu, hnu, hrun]
  · intro s u e hs hns hu hnu hrun
    simp [custom_agent_runner, hs, hns, hu, hnu, hrun]
  · intro s u e hs hns hu hnf hnw hrun
    simp [custom_agent_runner, hs, hns, hu, hnf, hnw, hrun]
  · intro s e hs h1 h2 h3 hrun
    simp [custom_agent_runner, hs, h1, h2, h3, hrun]

/-- Witness for C6: a dead Ollama server still yields a normal reply
carrying the error text, while a failing web-search run kills the turn. -/
theorem ollama_errors_caught_others_propagate_witness :
    (custom_agent_runner
        { oracGeneral with
            switchOut := Except.ok "OLLAMA",
            ollamaChat := fun _ => Except.error "conn refused" } "oi" "hi" "").1 =
        Except.ok ("Error connecting to Ollama: " ++ "conn refused" ++
          ". Make sure Ollama is running locally.")
      ∧ (custom_agent_runner
          { oracGeneral with
              subOut := Except.ok "WEB",
              runWebSearch := fun _ => Except.error "boom" } "oi" "hi" "").1 =
        Except.error "boom" :=
  ⟨(ollama_errors_caught_others_propagate
      { oracGeneral with
          switchOut := Except.ok "OLLAMA",
          ollamaChat := fun _ => Except.error "conn refused" } "oi" "hi" "").1
      "OLLAMA" "conn refused" rfl rfl rfl,
    (ollama_errors_caught_others_propagate
      { oracGeneral with
          subOut := Except.ok "WEB",
          runWebSearch := fun _ => Except.error "boom" } "oi" "hi" "").2.2.2.2.2.1
      "ROUTER" "WEB" "boom" rfl rfl rfl rfl rfl⟩

/-- Claim C7. The instruction loader returns the file's full contents when
the file exists, and a fixed nonempty default when it is not found; it
never fails the program. -/
theorem load_instructions_contents_or_default
    (fs : String → Option String) (file_name : String) :
    (∀ contents, fs file_name = some contents →
      load_instructions fs file_name = contents)
    ∧ (fs file_name = none →
      load_instructions fs file_name = default_instructions)
    ∧ default_instructions ≠ "" := by
  refine ⟨?_, ?_, by decide⟩
  · intro contents h
    simp [load_instructions, h]
  · intro h
    simp [load_instructions, h]

/-- Witness for C7: a present file is read back verbatim, a missing one
falls back to the default. -/
theorem load_instructions_contents_or_default_witness :
    load_instructions (fun n => if n = "a.txt" then some "be calm" else none) "a.txt"
        = "be calm"
      ∧ load_instructions (fun n => if n = "a.txt" then some "be calm" else none) "b.txt"
        = default_instructions :=
  ⟨(load_instructions_contents_or_default
      (fun n => if n = "a.txt" then some "be calm" else none) "a.txt").1 "be calm" rfl,
    (load_instructions_contents_or_default
      (fun n => if n = "a.txt" then some "be calm" else none) "b.txt").2.1 rfl⟩

/-- Claim C8. A chat turn that completes appends exactly two entries to
the session list — the user message, then the assistant reply — and in
every case (even a turn that dies) the previously stored messages
survive unchanged as a leading segment of the new list. -/
theorem process_turn_appends_two
    (o : Oracle) (instr : String) (messages : List Msg) (prompt : String) :
    (∀ reply, (process_turn o instr messages prompt).2 = Except.ok reply →
      (process_turn o instr messages prompt).1
        = messages ++ [⟨"user", prompt⟩, ⟨"assistant", reply⟩])
    ∧ (∃ tail, (process_turn o instr messages prompt).1 = messages ++ tail) := by
  constructor
  · intro reply h
    unfold process_turn at h ⊢
    cases hrun : (custom_agent_runner o instr prompt
        (conversation_history (messages ++ [⟨"user", prompt⟩]))).1 with
    | error e => simp [hrun] at h
    | ok r =>
      simp [hrun] at h ⊢
      simp [h]
  · unfold process_turn
    cases hrun : (custom_agent_runner o instr prompt
        (conversation_history (messages ++ [⟨"user", prompt⟩]))).1 with
    | error e => exact ⟨[⟨"user", prompt⟩], by simp [hrun]⟩
    | ok r => exact ⟨[⟨"user", prompt⟩, ⟨"assistant", r⟩], by simp [hrun]⟩

/-- Witness for C8: one concrete completed turn appends the user message
and the assistant reply, in that order. -/
theorem process_turn_appends_two_witness :
    (process_turn oracGeneral "oi" [⟨"user", "a"⟩, ⟨"assistant", "b"⟩] "hi").1
      = [⟨"user", "a"⟩, ⟨"assistant", "b"⟩] ++ [⟨"user", "hi"⟩, ⟨"assistant", "G"⟩] :=
  (process_turn_appends_two oracGeneral "oi" [⟨"user", "a"⟩, ⟨"assistant", "b"⟩] "hi").1
    "G" rfl

end App

namespace App

/-- Claim C1 counterexample. The claim "an unrecognized switch output is
handled exactly as when the classifier answers ROUTER" is false: with
the sub-route answering FILE, an explicit `"ROUTER"` answer hands the
turn to the file-search agent, while the unrecognized answer
`"BANANA"` (normalized form neither ANTHROPIC nor OLLAMA) skips the
sub-route and runs the base router agent, giving a different result. -/
theorem unrecognized_switch_not_router_cex :
    pyNorm "BANANA" ≠ "ANTHROPIC"
    ∧ pyNorm "BANANA" ≠ "OLLAMA"
    ∧ (custom_agent_runner
        { oracGeneral with switchOut := Except.ok "BANANA", subOut := Except.ok "FILE" }
        "oi" "hi" "").1 = Except.ok "G"
    ∧ (custom_agent_runner
        { oracGeneral with switchOut := Except.ok "ROUTER", subOut := Except.ok "FILE" }
        "oi" "hi" "").1 = Except.ok "F"
    ∧ (Except.ok "G" : Except String String) ≠ Except.ok "F" :=
  ⟨by decide, by decide, rfl, rfl, by simp⟩

/-- Claim C1, amended. Every first-stage classifier output whose
normalized form is none of `"ROUTER"`, `"ANTHROPIC"`, `"OLLAMA"` is
handled by the fallback path: the turn's result is the base router
agent (an OpenAI-side agent) run on the full prompt, with no
sub-classification — which coincides with an explicit ROUTER answer
exactly when the sub-route answers GENERAL. -/
theorem unrecognized_switch_runs_base_router
    (o : Oracle) (instr goal hist s : String)
    (hs : o.switchOut = Except.ok s)
    (h1 : pyNorm s ≠ "ROUTER") (h2 : pyNorm s ≠ "ANTHROPIC") (h3 : pyNorm s ≠ "OLLAMA") :
    custom_agent_runner o instr goal hist =
      (o.runRouterAgent (full_prompt goal hist),
        [Call.classifySwitch (full_prompt goal hist),
          Call.runAgent AgentId.routerAgent (full_prompt goal hist)])
    ∧ (custom_agent_runner o instr goal hist).1 =
      (custom_agent_runner
        { o with switchOut := Except.ok "ROUTER", subOut := Except.ok "GENERAL" }
        instr goal hist).1 := by
  have hmain : custom_agent_runner o instr goal hist =
      (o.runRouterAgent (full_prompt goal hist),
        [Call.classifySwitch (full_prompt goal hist),
          Call.runAgent AgentId.routerAgent (full_prompt goal hist)]) := by
    simp [custom_agent_runner, hs, h1, h2, h3]
  refine ⟨hmain, ?_⟩
  rw [hmain]
  have e1 : pyNorm "ROUTER" = "ROUTER" := by decide
  have e2 : ¬ pyNorm "GENERAL" = "FILE" := by decide
  have e3 : ¬ pyNorm "GENERAL" = "WEB" := by decide
  simp [custom_agent_runner, e1, e2, e3]

/-- Witness for C1 (amended): the `"BANANA"` answer runs the base
router agent on the full prompt. -/
theorem unrecognized_switch_runs_base_router_witness :
    custom_agent_runner { oracGeneral with switchOut := Except.ok "BANANA" } "oi" "hi" "" =
      (({ oracGeneral with switchOut := Except.ok "BANANA" } : Oracle).runRouterAgent
          (full_prompt "hi" ""),
        [Call.classifySwitch (full_prompt "hi" ""),
          Call.runAgent AgentId.routerAgent (full_prompt "hi" "")]) :=
  (unrecognized_switch_runs_base_router
    { oracGeneral with switchOut := Except.ok "BANANA" } "oi" "hi" "" "BANANA"
    rfl (by decide) (by decide) (by decide)).1

end App

namespace App

/-- Conversion `Char.ofNat` below the surrogate range reads back its code point. -/
theorem toNat_ofNat_lt (n : Nat) (h : n < 55296) : (Char.ofNat n).toNat = n := by
  unfold Char.ofNat
  rw [dif_pos (Or.inl h : Nat.isValidChar n)]
  rfl

/-- ASCII uppercasing is idempotent. -/
theorem pyUpperChar_idem (c : Char) : pyUpperChar (pyUpperChar c) = pyUpperChar c := by
  unfold pyUpperChar
  by_cases h : 97 ≤ c.toNat ∧ c.toNat ≤ 122
  · rw [if_pos h, if_neg]
    rw [toNat_ofNat_lt (c.toNat - 32) (by omega)]
    omega
  · rw [if_neg h, if_neg h]

/-- Characters at or above code point 33 are not Python whitespace. -/
theorem pyIsSpace_false_of_ge (c : Char) (h : 33 ≤ c.toNat) : pyIsSpace c = false := by
  have hne : ∀ d : Char, d.toNat < 33 → c ≠ d := by
    intro d hd he
    rw [he] at h
    omega
  simp [pyIsSpace, hne ' ' (by decide), hne '\t' (by decide), hne '\n' (by decide),
    hne '\r' (by decide), hne '\x0b' (by decide), hne '\x0c' (by decide)]

/-- Uppercasing neither creates nor destroys whitespace. -/
theorem pyIsSpace_pyUpperChar (c : Char) : pyIsSpace (pyUpperChar c) = pyIsSpace c := by
  unfold pyUpperChar
  by_cases h : 97 ≤ c.toNat ∧ c.toNat ≤ 122
  · rw [if_pos h]
    rw [pyIsSpace_false_of_ge c (by omega)]
    apply pyIsSpace_false_of_ge
    rw [toNat_ofNat_lt (c.toNat - 32) (by omega)]
    omega
  · rw [if_neg h]

/-- Python `strip` commutes with `upper`. -/
theorem pyStripList_map_upper (l : List Char) :
    pyStripList (l.map pyUpperChar) = (pyStripList l).map pyUpperChar := by
  have hp : pyIsSpace ∘ pyUpperChar = pyIsSpace := funext pyIsSpace_pyUpperChar
  unfold pyStripList
  rw [List.dropWhile_map, hp, ← List.map_reverse, List.dropWhile_map, hp, ← List.map_reverse]

/-- A stripped list has no leading whitespace left. -/
theorem dropWhile_rdropWhile_dropWhile (p : Char → Bool) (l : List Char) :
    (List.rdropWhile p (l.dropWhile p)).dropWhile p = List.rdropWhile p (l.dropWhile p) := by
  obtain ⟨t, ht⟩ := List.rdropWhile_prefix p (l.dropWhile p)
  cases hv : List.rdropWhile p (l.dropWhile p) with
  | nil => rfl
  | cons c v' =>
    rw [hv] at ht
    have hne : l.dropWhile p ≠ [] := by
      rw [← ht]; simp
    have hc : p c = false := by
      have hh := List.head?_dropWhile_not p l
      have hq : (l.dropWhile p).head? = some c := by
        rw [← ht]
        rfl
      rw [hq] at hh
      exact hh
    simp [List.dropWhile_cons, hc]

/-- Python `strip` is idempotent. -/
theorem pyStripList_idem (l : List Char) : pyStripList (pyStripList l) = pyStripList l := by
  have h0 : ∀ x : List Char, pyStripList x = List.rdropWhile pyIsSpace (x.dropWhile pyIsSpace) :=
    fun _ => rfl
  rw [h0 (pyStripList l), h0 l, dropWhile_rdropWhile_dropWhile,
    List.rdropWhile_idempotent]

/-- The classifier-output normalization is idempotent. -/
theorem pyNorm_idem (s : String) : pyNorm (pyNorm s) = pyNorm s := by
  show (⟨(pyStripList ((pyStripList s.data).map pyUpperChar)).map pyUpperChar⟩ : String)
      = ⟨(pyStripList s.data).map pyUpperChar⟩
  rw [pyStripList_map_upper, pyStripList_idem]
  congr 1
  rw [List.map_map]
  exact List.map_congr_left fun c _ => pyUpperChar_idem c

/-- Claim C9. Dispatch is invariant under surrounding whitespace and
letter case of the classifier outputs: replacing either classifier's
output by its whitespace-stripped, uppercased form changes nothing
about the turn — neither the result nor the calls made. -/
theorem dispatch_invariant_normalization
    (o : Oracle) (instr goal hist s u : String) :
    custom_agent_runner { o with switchOut := Except.ok s, subOut := Except.ok u }
        instr goal hist
      = custom_agent_runner
          { o with switchOut := Except.ok (pyNorm s), subOut := Except.ok (pyNorm u) }
          instr goal hist := by
  simp [custom_agent_runner, pyNorm_idem, generate_anthropic_response,
    generate_ollama_response]

example :
    (custom_agent_runner { oracGeneral with switchOut := Except.ok "  router " } "oi" "hi" "").1
      = (custom_agent_runner { oracGeneral with switchOut := Except.ok "Router" } "oi" "hi" "").1 :=
  rfl

end App

namespace App

/-- Roles of the spec's flat (role, text) transcript pairs. -/
inductive Role where
  | user
  | assistant
deriving DecidableEq, Repr

/-- One transcript pair rendered as a `Role: text` line, following the
spec's words ("serialized to Role: text lines"). -/
def spec_render : Role × String → String
  | (Role.user, t) => "User: " ++ t
  | (Role.assistant, t) => "Assistant: " ++ t

/-- The spec-side serialization: render every pair, in order, and join
with blank lines — nothing summarized, truncated, or omitted. -/
def spec_serialize (transcript : List (Role × String)) : String :=
  pyJoin "\n\n" (transcript.map spec_render)

/-- The session-state message holding one transcript pair. -/
def roleMsg : Role × String → Msg
  | (r, t) => ⟨if r = Role.user then "user" else "assistant", t⟩

theorem append_user_line (t : String) : ("User" : String) ++ ": " ++ t = "User: " ++ t := by
  rcases t with ⟨d⟩
  rfl

theorem append_assistant_line (t : String) :
    ("Assistant" : String) ++ ": " ++ t = "Assistant: " ++ t := by
  rcases t with ⟨d⟩
  rfl

/-- Claim C5. The conversation-history string handed to the backends is
the serialization of every prior (role, text) pair except the current
message, each rendered as a `User: text` / `Assistant: text` line,
joined by blank lines, in the original order, nothing summarized,
truncated, or omitted. -/
theorem history_serialization_refines_spec
    (transcript : List (Role × String)) (current : Msg) :
    conversation_history (transcript.map roleMsg ++ [current])
      = spec_serialize transcript := by
  unfold conversation_history spec_serialize
  rw [List.dropLast_concat, List.map_map]
  congr 1
  apply List.map_congr_left
  rintro ⟨r, t⟩ _
  cases r
  · exact append_user_line t
  · exact append_assistant_line t

example :
    conversation_history
        [⟨"user", "a"⟩, ⟨"assistant", "b"⟩, ⟨"user", "now"⟩]
      = "User: a\n\nAssistant: b" := by decide

end App

namespace App

/-! ### Roundtrip of the serialized history through the adapter parsers -/

/-- The blank-line separator used by the serializer and both parsers. -/
def nl2 : List Char := ['\n', '\n']

theorem leadsWith_append_self (p l : List Char) : leadsWith p (p ++ l) = true := by
  induction p with
  | nil => rfl
  | cons a p ih => simp [leadsWith, ih]

theorem leadsWith_nl2_eq (l : List Char) :
    leadsWith nl2 l
      = (decide (l.head? = some '\n') && decide (l.tail.head? = some '\n')) := by
  cases l with
  | nil => rfl
  | cons c cs =>
    cases cs with
    | nil => simp [nl2, leadsWith]
    | cons d x => simp [nl2, leadsWith, eq_comm]

theorem occursIn_cons (pat : List Char) (c : Char) (cs : List Char) :
    occursIn pat (c :: cs) = (leadsWith pat (c :: cs) || occursIn pat cs) := rfl

/-- The split scanner ignores how much surplus fuel it is given. -/
theorem pySplitFuel_fuel_irrel :
    ∀ (n : Nat) (l acc : List Char) (f₁ f₂ : Nat),
      l.length ≤ n → l.length ≤ f₁ → l.length ≤ f₂ →
      pySplitFuel nl2 f₁ l acc = pySplitFuel nl2 f₂ l acc := by
  intro n
  induction n with
  | zero =>
    intro l acc f₁ f₂ hn _ _
    have h0 : l = [] := List.length_eq_zero.mp (Nat.le_zero.mp hn)
    subst h0
    cases f₁ <;> cases f₂ <;> rfl
  | succ n ih =>
    intro l acc f₁ f₂ hn h₁ h₂
    cases l with
    | nil => cases f₁ <;> cases f₂ <;> rfl
    | cons c cs =>
      cases f₁ with
      | zero => simp at h₁
      | succ a =>
        cases f₂ with
        | zero => simp at h₂
        | succ b =>
          simp only [List.length_cons, Nat.succ_le_succ_iff] at hn h₁ h₂
          by_cases hm : leadsWith nl2 (c :: cs) = true ∧ nl2 ≠ []
          · simp only [pySplitFuel, if_pos hm]
            have hd : (List.drop (nl2.length - 1) cs).length ≤ cs.length := by
              simp [List.length_drop]
            exact congrArg _
              (ih _ [] a b (le_trans hd hn) (le_trans hd h₁) (le_trans hd h₂))
          · simp only [pySplitFuel, if_neg hm]
            exact ih cs (c :: acc) a b hn h₁ h₂

/-- A chunk without the separator is scanned to the end as one piece. -/
theorem pySplitFuel_no_sep :
    ∀ (l acc : List Char) (f : Nat), l.length ≤ f → occursIn nl2 l = false →
      pySplitFuel nl2 f l acc = [acc.reverse ++ l] := by
  intro l
  induction l with
  | nil =>
    intro acc f _ _
    cases f <;> simp [pySplitFuel]
  | cons c cs ih =>
    intro acc f hf hocc
    rw [occursIn_cons, Bool.or_eq_false_iff] at hocc
    cases f with
    | zero => simp at hf
    | succ a =>
      have hm : ¬ (leadsWith nl2 (c :: cs) = true ∧ nl2 ≠ []) := by
        intro hcon
        rw [hocc.1] at hcon
        exact Bool.false_ne_true hcon.1
      simp only [pySplitFuel, if_neg hm]
      rw [ih (c :: acc) a (by simpa using hf) hocc.2]
      simp

end App

namespace App

/-- Scanning a clean part followed by the separator emits the part and
restarts after the separator.  The hypothesis packages "no blank line
inside the part and the part does not end in a newline". -/
theorem pySplitFuel_consume_part :
    ∀ (p rest acc : List Char) (f : Nat),
      p.length + 2 + rest.length ≤ f →
      occursIn nl2 (p ++ ['\n']) = false →
      pySplitFuel nl2 f (p ++ '\n' :: '\n' :: rest) acc
        = (acc.reverse ++ p) :: pySplitFuel nl2 rest.length rest [] := by
  intro p
  induction p with
  | nil =>
    intro rest acc f hf hocc
    cases f with
    | zero => exact absurd hf (by simp)
    | succ a =>
      have hlw : leadsWith nl2 ('\n' :: '\n' :: rest) = true :=
        leadsWith_append_self nl2 rest
      have hm : leadsWith nl2 ('\n' :: '\n' :: rest) = true ∧ nl2 ≠ [] :=
        ⟨hlw, by simp [nl2]⟩
      simp only [List.nil_append, pySplitFuel, if_pos hm]
      have ha : rest.length ≤ a := by
        simp at hf
        omega
      rw [pySplitFuel_fuel_irrel rest.length (List.drop (nl2.length - 1) ('\n' :: rest)) []
        a rest.length (by simp [nl2]) (by simp [nl2]; omega) (by simp [nl2])]
      simp [nl2]
  | cons c p' ih =>
    intro rest acc f hf hocc
    cases f with
    | zero => exact absurd hf (by simp)
    | succ a =>
      have hocc' : occursIn nl2 (p' ++ ['\n']) = false := by
        rw [List.cons_append, occursIn_cons, Bool.or_eq_false_iff] at hocc
        exact hocc.2
      have hlw : leadsWith nl2 (c :: (p' ++ '\n' :: '\n' :: rest)) = false := by
        rw [List.cons_append, occursIn_cons, Bool.or_eq_false_iff] at hocc
        have h1 := hocc.1
        rw [leadsWith_nl2_eq] at h1 ⊢
        simp only [List.head?_cons, List.tail_cons] at h1 ⊢
        cases p' with
        | nil => simpa using h1
        | cons d p'' => simpa using h1
      have hm : ¬ (leadsWith nl2 (c :: (p' ++ '\n' :: '\n' :: rest)) = true ∧ nl2 ≠ []) := by
        intro hcon
        rw [hlw] at hcon
        exact Bool.false_ne_true hcon.1
      simp only [List.cons_append, pySplitFuel, List.append_eq, if_neg hm]
      rw [ih rest (c :: acc) a (by simp at hf ⊢; omega) hocc']
      simp

/-- Splitting the blank-line join of clean parts recovers the parts. -/
theorem pySplit_join_parts :
    ∀ (parts : List (List Char)), parts ≠ [] →
      (∀ q ∈ parts, occursIn nl2 q = false) →
      (∀ q ∈ parts.dropLast, occursIn nl2 (q ++ ['\n']) = false) →
      pySplitList nl2 (pyJoinList nl2 parts) = parts := by
  intro parts
  induction parts with
  | nil => intro h; exact absurd rfl h
  | cons p parts' ih =>
    intro _ hall hinit
    cases parts' with
    | nil =>
      show pySplitList nl2 p = [p]
      exact pySplitFuel_no_sep p [] p.length le_rfl (hall p (by simp))
    | cons q parts'' =>
      have hjoin : pyJoinList nl2 (p :: q :: parts'')
          = p ++ '\n' :: '\n' :: pyJoinList nl2 (q :: parts'') := by
        show p ++ nl2 ++ pyJoinList nl2 (q :: parts'')
          = p ++ '\n' :: '\n' :: pyJoinList nl2 (q :: parts'')
        simp [nl2]
      unfold pySplitList
      rw [hjoin]
      rw [pySplitFuel_consume_part p (pyJoinList nl2 (q :: parts'')) []
        (p ++ '\n' :: '\n' :: pyJoinList nl2 (q :: parts'')).length
        (by simp; omega) (hinit p (by simp))]
      have ihq : pySplitList nl2 (pyJoinList nl2 (q :: parts'')) = q :: parts'' :=
        ih (by simp)
          (fun r hr => hall r (List.mem_cons_of_mem p hr))
          (fun r hr => hinit r (by
            rw [List.dropLast_cons₂]
            exact List.mem_cons_of_mem p hr))
      have hval : pySplitFuel nl2 (pyJoinList nl2 (q :: parts'')).length
          (pyJoinList nl2 (q :: parts'')) []
            = pySplitList nl2 (pyJoinList nl2 (q :: parts'')) := rfl
      rw [hval, ihq]
      simp

end App

namespace App

/-- Replacing a pattern that does not occur changes nothing. -/
theorem pyReplaceFuel_no_occ (pat rep : List Char) :
    ∀ (l : List Char) (f : Nat), l.length ≤ f → occursIn pat l = false →
      pyReplaceFuel pat rep f l = l := by
  intro l
  induction l with
  | nil => intro f _ _; cases f <;> rfl
  | cons c cs ih =>
    intro f hf hocc
    rw [occursIn_cons, Bool.or_eq_false_iff] at hocc
    cases f with
    | zero => simp at hf
    | succ a =>
      have hm : ¬ (leadsWith pat (c :: cs) = true ∧ pat ≠ []) := by
        intro hcon
        rw [hocc.1] at hcon
        exact Bool.false_ne_true hcon.1
      simp only [pyReplaceFuel, if_neg hm]
      rw [ih a (by simpa using hf) hocc.2]

/-- Python `replace` deletes a leading marker exactly, provided the
marker occurs nowhere in the remainder. -/
theorem pyReplaceList_strip_marker (pat t : List Char) (hne : pat ≠ [])
    (hocc : occursIn pat t = false) :
    pyReplaceList pat [] (pat ++ t) = t := by
  unfold pyReplaceList
  cases pat with
  | nil => exact absurd rfl hne
  | cons q qs =>
    have hlw : leadsWith (q :: qs) (q :: (qs ++ t)) = true := by
      have := leadsWith_append_self (q :: qs) t
      simpa using this
    have hm : leadsWith (q :: qs) (q :: (qs ++ t)) = true ∧ q :: qs ≠ ([] : List Char) :=
      ⟨hlw, by simp⟩
    show pyReplaceFuel (q :: qs) [] (q :: (qs ++ t)).length (q :: (qs ++ t)) = t
    simp only [List.length_cons, pyReplaceFuel, List.append_eq, if_pos hm]
    simp only [List.length_cons, Nat.succ_sub_one, List.nil_append]
    rw [List.drop_left]
    exact pyReplaceFuel_no_occ (q :: qs) [] t (qs ++ t).length (by simp) hocc

theorem string_mk_data (s : String) : (⟨s.data⟩ : String) = s := rfl

theorem leadsWith_false_of_head (p c : Char) (ps cs : List Char) (h : p ≠ c) :
    leadsWith (p :: ps) (c :: cs) = false := by
  simp [leadsWith, h]

/-- A `User: text` line parses back to the user message, provided the
text does not itself contain the marker. -/
theorem parseHistoryLine_user (line t : String)
    (hd : line.data = "User: ".data ++ t.data)
    (hocc : occursIn "User: ".data t.data = false) :
    parseHistoryLine line = some ⟨"user", t⟩ := by
  unfold parseHistoryLine pyReplace
  rw [hd, if_pos (leadsWith_append_self "User: ".data t.data)]
  rw [show ("" : String).data = ([] : List Char) from rfl]
  rw [pyReplaceList_strip_marker "User: ".data t.data (by decide) hocc]

/-- An `Assistant: text` line parses back to the assistant message,
provided the text does not itself contain the marker. -/
theorem parseHistoryLine_assistant (line t : String)
    (hd : line.data = "Assistant: ".data ++ t.data)
    (hocc : occursIn "Assistant: ".data t.data = false) :
    parseHistoryLine line = some ⟨"assistant", t⟩ := by
  unfold parseHistoryLine pyReplace
  rw [hd]
  rw [if_neg]
  · rw [if_pos (leadsWith_append_self "Assistant: ".data t.data)]
    rw [show ("" : String).data = ([] : List Char) from rfl]
    rw [pyReplaceList_strip_marker "Assistant: ".data t.data (by decide) hocc]
  · show ¬ leadsWith "User: ".data ('A' :: ("ssistant: ".data ++ t.data)) = true
    rw [leadsWith_false_of_head 'U' 'A' _ _ (by decide)]
    exact Bool.false_ne_true

/-- Applying `filterMap` with a function that fixes every element of a list is the
identity there. -/
theorem filterMap_fix {α : Type} (f : α → Option α) :
    ∀ l : List α, (∀ a ∈ l, f a = some a) → l.filterMap f = l := by
  intro l
  induction l with
  | nil => intro _; rfl
  | cons a l ih =>
    intro h
    rw [List.filterMap_cons_some (h a (by simp))]
    rw [ih fun b hb => h b (List.mem_cons_of_mem a hb)]

end App

namespace App

/-- Appending lists free of blank lines yields a list free of blank
lines, provided none is created at the boundary. -/
theorem occursIn_nl2_append (a b : List Char) :
    occursIn nl2 a = false → occursIn nl2 b = false →
    (a.getLast? ≠ some '\n' ∨ b.head? ≠ some '\n') →
    occursIn nl2 (a ++ b) = false := by
  induction a with
  | nil =>
    intro _ hb _
    simpa using hb
  | cons c a' ih =>
    intro ha hb hbound
    rw [occursIn_cons, Bool.or_eq_false_iff] at ha
    rw [List.cons_append, occursIn_cons, Bool.or_eq_false_iff]
    cases a' with
    | nil =>
      refine ⟨?_, by simpa using hb⟩
      rw [leadsWith_nl2_eq]
      by_cases hc : c = '\n'
      · subst hc
        rcases hbound with h | h
        · exact absurd (by decide) h
        · simp [h]
      · simp [hc]
    | cons d a'' =>
      refine ⟨?_, ih ha.2 hb (by simpa using hbound)⟩
      have h1 := ha.1
      rw [leadsWith_nl2_eq] at h1 ⊢
      simpa using h1

/-- The serializer's per-message rendering (the lambda of app.py:287). -/
def renderLine (msg : Msg) : String :=
  (if msg.role = "user" then "User" else "Assistant") ++ ": " ++ msg.content

/-- The role marker carried by a rendered line. -/
def markerData (msg : Msg) : List Char :=
  if msg.role = "user" then "User: ".data else "Assistant: ".data

theorem renderLine_data (msg : Msg) :
    (renderLine msg).data = markerData msg ++ msg.content.data := by
  unfold renderLine markerData
  by_cases h : msg.role = "user"
  · rw [if_pos h, if_pos h]
    rfl
  · rw [if_neg h, if_neg h]
    rfl

/-- The serializer applied to a full message list;
`conversation_history (msgs ++ [current]) = serialize_messages msgs`. -/
def serialize_messages (messages : List Msg) : String :=
  pyJoin "\n\n" (messages.map renderLine)

theorem conversation_history_concat (messages : List Msg) (current : Msg) :
    conversation_history (messages ++ [current]) = serialize_messages messages := by
  unfold conversation_history serialize_messages renderLine
  rw [List.dropLast_concat]

/-- A rendered line contains no blank line when its text does not. -/
theorem occursIn_nl2_renderLine (msg : Msg)
    (hnl : occursIn nl2 msg.content.data = false) :
    occursIn nl2 (renderLine msg).data = false := by
  rw [renderLine_data]
  refine occursIn_nl2_append (markerData msg) msg.content.data ?_ hnl (Or.inl ?_)
  · unfold markerData
    by_cases h : msg.role = "user"
    · rw [if_pos h]; decide
    · rw [if_neg h]; decide
  · unfold markerData
    by_cases h : msg.role = "user"
    · rw [if_pos h]; decide
    · rw [if_neg h]; decide

/-- A rendered line does not end in a newline when its text does not. -/
theorem renderLine_getLast (msg : Msg)
    (htrail : msg.content.data.getLast? ≠ some '\n') :
    (renderLine msg).data.getLast? ≠ some '\n' := by
  rw [renderLine_data, List.getLast?_append]
  cases hx : msg.content.data.getLast? with
  | none =>
    rw [Option.none_or]
    unfold markerData
    by_cases h : msg.role = "user"
    · rw [if_pos h]; decide
    · rw [if_neg h]; decide
  | some c =>
    rw [Option.or_some]
    rw [hx] at htrail
    exact htrail

/-- A rendered line parses back to the message it came from. -/
theorem parseHistoryLine_renderLine (msg : Msg)
    (hrole : msg.role = "user" ∨ msg.role = "assistant")
    (hmark : occursIn (markerData msg) msg.content.data = false) :
    parseHistoryLine (renderLine msg) = some msg := by
  rcases msg with ⟨r, t⟩
  rcases hrole with h | h
  · subst h
    have hm : markerData ⟨"user", t⟩ = "User: ".data := by
      unfold markerData
      rw [if_pos rfl]
    rw [hm] at hmark
    exact parseHistoryLine_user (renderLine ⟨"user", t⟩) t
      (by rw [renderLine_data, hm]) hmark
  · subst h
    have hne : ("assistant" : String) ≠ "user" := by decide
    have hm : markerData ⟨"assistant", t⟩ = "Assistant: ".data := by
      unfold markerData
      rw [if_neg hne]
    rw [hm] at hmark
    exact parseHistoryLine_assistant (renderLine ⟨"assistant", t⟩) t
      (by rw [renderLine_data, hm]) hmark

end App

namespace App

/-- Serializing a clean transcript and re-parsing it in the adapters is
the identity. -/
theorem parseHistory_serialize (messages : List Msg)
    (hrole : ∀ m ∈ messages, m.role = "user" ∨ m.role = "assistant")
    (hnl : ∀ m ∈ messages, occursIn nl2 m.content.data = false)
    (htrail : ∀ m ∈ messages.dropLast, m.content.data.getLast? ≠ some '\n')
    (hmark : ∀ m ∈ messages, occursIn (markerData m) m.content.data = false) :
    parseHistory (serialize_messages messages) = messages := by
  cases messages with
  | nil => decide
  | cons m0 ms =>
    have hsplit : pySplitList nl2
        (pyJoinList nl2 (((m0 :: ms).map renderLine).map String.data))
          = ((m0 :: ms).map renderLine).map String.data := by
      apply pySplit_join_parts
      · simp
      · intro q hq
        simp only [List.map_map, List.mem_map, Function.comp] at hq
        obtain ⟨m, hm, rfl⟩ := hq
        exact occursIn_nl2_renderLine m (hnl m hm)
      · intro q hq
        rw [List.map_map, ← List.map_dropLast] at hq
        simp only [List.mem_map, Function.comp] at hq
        obtain ⟨m, hm, rfl⟩ := hq
        have hmem : m ∈ m0 :: ms := List.dropLast_subset _ hm
        refine occursIn_nl2_append _ _ ?_ (by decide) (Or.inl ?_)
        · exact occursIn_nl2_renderLine m (hnl m hmem)
        · exact renderLine_getLast m (htrail m hm)
    show ((pySplitList nl2
        (pyJoinList nl2 (((m0 :: ms).map renderLine).map String.data))).map
          (fun l => (⟨l⟩ : String))).filterMap parseHistoryLine = m0 :: ms
    rw [hsplit]
    simp only [List.map_map]
    rw [List.filterMap_map]
    apply filterMap_fix
    intro m hm
    show parseHistoryLine (renderLine m) = some m
    exact parseHistoryLine_renderLine m (hrole m hm) (hmark m hm)

end App

namespace App

/-- Claim C10 counterexample. Serialize-then-parse is not the identity
under the claim's own hypotheses: the text `"see User: hi"` contains no
blank line and its serialized segment carries an intact `User: ` marker,
yet Python `replace` strips the inner occurrence too, so the roundtrip
returns `"see hi"`. -/
theorem history_roundtrip_cex :
    occursIn nl2 "see User: hi".data = false
    ∧ "see User: hi".data.getLast? = some 'i'
    ∧ parseHistory (serialize_messages [⟨"user", "see User: hi"⟩])
        = [⟨"user", "see hi"⟩]
    ∧ parseHistory (serialize_messages [⟨"user", "see User: hi"⟩])
        ≠ [⟨"user", "see User: hi"⟩] :=
  ⟨by decide, by decide, by decide, by decide⟩

/-- Claim C10, amended. For every transcript of user/assistant messages
in which no text contains a blank line, no text preceding the last ends
in a newline, and — as the counterexample forces — no text contains its
own role marker (`"User: "` inside a user text, `"Assistant: "` inside
an assistant text), serialize-then-parse reconstructs exactly the
original ordered (role, text) pairs.  A segment carrying neither prefix
is silently dropped: a text with a blank line loses every paragraph
after the first (second conjunct). -/
theorem history_roundtrip_amended (messages : List Msg)
    (hrole : ∀ m ∈ messages, m.role = "user" ∨ m.role = "assistant")
    (hnl : ∀ m ∈ messages, occursIn nl2 m.content.data = false)
    (htrail : ∀ m ∈ messages.dropLast, m.content.data.getLast? ≠ some '\n')
    (hmark : ∀ m ∈ messages, occursIn (markerData m) m.content.data = false) :
    parseHistory (serialize_messages messages) = messages
    ∧ parseHistory (serialize_messages [⟨"user", "one\n\ntwo"⟩]) = [⟨"user", "one"⟩] :=
  ⟨parseHistory_serialize messages hrole hnl htrail hmark, by decide⟩

/-- Witness for C10 (amended): a two-message transcript roundtrips. -/
theorem history_roundtrip_amended_witness :
    parseHistory (serialize_messages [⟨"user", "a"⟩, ⟨"assistant", "b"⟩])
        = [⟨"user", "a"⟩, ⟨"assistant", "b"⟩]
      ∧ parseHistory (serialize_messages [⟨"user", "one\n\ntwo"⟩]) = [⟨"user", "one"⟩] :=
  history_roundtrip_amended [⟨"user", "a"⟩, ⟨"assistant", "b"⟩]
    (by decide) (by decide) (by decide) (by decide)

end App
